import Mathlib

/-!
Shallow embedding of the JARVIS personal-assistant pipeline and proofs about it.

The embedding follows the Python sources:
  * `jarvis/memory.py`        — class `Memory` (the Transcript Store)
  * `jarvis/prompt_controller.py` — class `PromptController` (Role Registry + Prompt Assembler)
  * `jarvis/assistant.py`     — class `JarvisAssistant` (Session Coordinator)
  * `jarvis/gemini_engine.py` — the streaming surface of `GeminiEngine` (Completion Client)

Modelling conventions:
  * Mutation is explicit state passing: every method that mutates `self` takes the
    state and returns the new state.
  * `datetime.now()` results are threaded in as explicit string arguments.
  * File I/O is modelled by a `FileState` component of the store state; whether a
    `write` raises `IOError` is an explicit boolean argument (`writeOk`).
  * Raised exceptions are `Except.error` values carrying the exception text.
  * Python `list` slicing `xs[-k:]` is modelled exactly, including the `k = 0`
    quirk (`xs[-0:]` is the whole list, not the empty list).
-/

namespace Jarvis

/-- JSON values, as produced and consumed by the `json` module when `memory.py`
persists and reloads the conversation file. -/
inductive JsonVal : Type where
  | null : JsonVal
  | bool (b : Bool) : JsonVal
  | num (n : Int) : JsonVal
  | str (s : String) : JsonVal
  | arr (elems : List JsonVal) : JsonVal
  | obj (fields : List (String × JsonVal)) : JsonVal

/-- A conversation message, the dict `{'role': ..., 'message': ..., 'timestamp': ...}`
appended by `Memory.add` (memory.py line 63). -/
structure Message where
  role : String
  message : String
  timestamp : String
deriving DecidableEq, Repr

/-- The state of the persisted conversation file as seen by `Memory`:
absent, present but unreadable (reading raises `IOError`), present with content
that `json.load` rejects (`JSONDecodeError`), or present with a parsed JSON value. -/
inductive FileState : Type where
  | absent : FileState
  | unreadable : FileState
  | notJson (raw : String) : FileState
  | jsonContent (v : JsonVal) : FileState

/-- State of a `Memory` object (memory.py): the configured `max_history`, the
in-memory `self.conversation` list, and the backing file. -/
structure MemoryState where
  maxHistory : Nat
  conversation : List Message
  file : FileState

/-- Python dict lookup `d.get(key, default)` on a JSON object represented as an
association list; later bindings shadow earlier ones, as in a Python dict. -/
def jsonGet (fields : List (String × JsonVal)) (key : String) : Option JsonVal :=
  (fields.reverse.find? (fun p => p.1 = key)).map Prod.snd

/-- Serialization of one message dict into the JSON value written by
`Memory._save_to_file` (memory.py lines 43-48). -/
def msgToJson (m : Message) : JsonVal :=
  JsonVal.obj [("role", JsonVal.str m.role),
               ("message", JsonVal.str m.message),
               ("timestamp", JsonVal.str m.timestamp)]

/-- Reading a `{'role','message','timestamp'}` dict back into a `Message`.
The Python code keeps the loaded dicts as-is; this decoder witnesses that the
persisted encoding of a well-formed message is lossless. -/
def decodeMsg (v : JsonVal) : Option Message :=
  match v with
  | JsonVal.obj fields =>
    match jsonGet fields "role", jsonGet fields "message", jsonGet fields "timestamp" with
    | some (JsonVal.str r), some (JsonVal.str m), some (JsonVal.str t) =>
        some { role := r, message := m, timestamp := t }
    | _, _, _ => none
  | _ => none

/-- Result of running `Memory._load_from_file` (memory.py lines 27-38) inside
`Memory.__init__`: either an uncaught exception, or the raw JSON value assigned
to `self.conversation` together with whether the warning was printed. -/
inductive PyLoaded : Type where
  | raises (exn : String) : PyLoaded
  | loaded (conversation : JsonVal) (warned : Bool) : PyLoaded

/-- Model of `Memory._load_from_file` (memory.py lines 27-38).
Missing file: empty conversation, no warning. `IOError` on read or
`JSONDecodeError`: caught, warning printed, empty conversation. Parsed JSON
object: `self.conversation = data.get('messages', [])`. Any other parsed JSON
value: `data.get` raises `AttributeError`, which the method does not catch. -/
def loadFromFile : FileState → PyLoaded
  | FileState.absent => PyLoaded.loaded (JsonVal.arr []) false
  | FileState.unreadable => PyLoaded.loaded (JsonVal.arr []) true
  | FileState.notJson _ => PyLoaded.loaded (JsonVal.arr []) true
  | FileState.jsonContent v =>
    match v with
    | JsonVal.obj fields =>
        PyLoaded.loaded ((jsonGet fields "messages").getD (JsonVal.arr [])) false
    | _ => PyLoaded.raises "AttributeError"

/-- Model of `Memory._save_to_file` (memory.py lines 40-50): rewrite the file
with `{'messages': conversation, 'last_updated': now}`; an `IOError`
(`writeOk = false`) is caught and only warned about, leaving the file as it was. -/
def saveToFile (st : MemoryState) (now : String) (writeOk : Bool) : MemoryState :=
  if writeOk then
    { st with file := FileState.jsonContent (JsonVal.obj
        [("messages", JsonVal.arr (st.conversation.map msgToJson)),
         ("last_updated", JsonVal.str now)]) }
  else st

/-- Python slice `xs[-k:]` for a natural `k`: the last `k` elements, except that
`xs[-0:]` is the whole list. -/
def pySliceLast (k : Nat) (xs : List Message) : List Message :=
  if k = 0 then xs else xs.drop (xs.length - k)

/-- Model of `Memory.add` (memory.py lines 52-73): reject roles outside
`{user, assistant}` with `ValueError`; otherwise append the message dict, trim
with `self.conversation[-self.max_history:]` when the length exceeds
`max_history`, and persist. `now` stands for both `datetime.now()` readings of
the call. -/
def Memory.add (st : MemoryState) (role text now : String) (writeOk : Bool) :
    Except String MemoryState :=
  if role = "user" ∨ role = "assistant" then
    let conv := st.conversation ++ [{ role := role, message := text, timestamp := now }]
    let conv2 := if st.maxHistory < conv.length then pySliceLast st.maxHistory conv else conv
    Except.ok (saveToFile { st with conversation := conv2 } now writeOk)
  else
    Except.error "ValueError: Role must be either \x27user\x27 or \x27assistant\x27"

/-- Model of `Memory.clear` (memory.py lines 111-114). -/
def Memory.clear (st : MemoryState) (now : String) (writeOk : Bool) : MemoryState :=
  saveToFile { st with conversation := [] } now writeOk

/-- Model of `Memory.get_history` (memory.py lines 75-87):
all messages, or `conversation[-last_n:]` when `last_n > 0`, else `[]`. -/
def Memory.get_history (st : MemoryState) (lastN : Option Int) : List Message :=
  match lastN with
  | none => st.conversation
  | some n => if 0 < n then st.conversation.drop (st.conversation.length - n.toNat) else []

/-- Model of `Memory.get_context_for_prompt` (memory.py lines 116-136). -/
def Memory.get_context_for_prompt (st : MemoryState) (lastN : Int) : String :=
  let history := Memory.get_history st (some lastN)
  if history = [] then ""
  else String.intercalate "\n"
    ("Previous conversation:" ::
      history.map (fun m =>
        (if m.role = "user" then "User" else "Assistant") ++ ": " ++ m.message))

/-- Conversation statistics returned by `Memory.get_statistics`
(memory.py lines 168-182). -/
structure Stats where
  total_messages : Nat
  user_messages : Nat
  assistant_messages : Nat
deriving DecidableEq, Repr

/-- Model of `Memory.get_statistics` (memory.py lines 168-182). -/
def Memory.get_statistics (st : MemoryState) : Stats :=
  { total_messages := st.conversation.length
    user_messages := st.conversation.countP (fun m => m.role = "user")
    assistant_messages := st.conversation.countP (fun m => m.role = "assistant") }

/-- The four keys of the static role catalog `PromptController.ROLES`
(prompt_controller.py lines 13-91). `PromptController.__init__` and `set_role`
reject any other key, so a validated current role is always one of these. -/
inductive RoleKey : Type where
  | general : RoleKey
  | tutor : RoleKey
  | coder : RoleKey
  | mentor : RoleKey
deriving DecidableEq, Repr

/-- The `system_prompt` field of each catalog entry
(prompt_controller.py lines 13-91), as returned by
`PromptController.get_system_prompt`. -/
def get_system_prompt : RoleKey → String
  | RoleKey.general =>
    "You are JARVIS, an advanced AI assistant inspired by Iron Man\x27s AI companion.\nYou are intelligent, helpful, professional yet friendly, and always ready to assist.\n\nKey traits:\n- Professional but approachable tone\n- Clear and concise explanations\n- Proactive in offering help\n- Admit when you don\x27t know something\n- Focus on being genuinely helpful\n\nAddress the user respectfully and provide thoughtful, accurate responses."
  | RoleKey.tutor =>
    "You are JARVIS in Tutor Mode, an expert educational AI assistant.\n\nYour role:\n- Break down complex topics into understandable chunks\n- Use analogies and examples to explain concepts\n- Encourage critical thinking with guiding questions\n- Adapt explanations to the learner\x27s level\n- Provide practice problems when appropriate\n- Be patient and encouraging\n\nTeaching approach:\n- Start with fundamentals\n- Build knowledge progressively\n- Check understanding regularly\n- Celebrate learning progress"
  | RoleKey.coder =>
    "You are JARVIS in Coding Assistant Mode, a specialized programming expert.\n\nYour expertise:\n- Write clean, efficient, well-documented code\n- Explain programming concepts clearly\n- Debug and optimize code\n- Suggest best practices and design patterns\n- Cover multiple programming languages\n- Provide complete, working code examples\n\nCode quality standards:\n- Follow language conventions\n- Include helpful comments\n- Consider edge cases\n- Prioritize readability and maintainability\n- Explain your code choices"
  | RoleKey.mentor =>
    "You are JARVIS in Career Mentor Mode, a professional development advisor.\n\nYour guidance:\n- Provide career advice and insights\n- Help with skill development planning\n- Assist with resume and interview preparation\n- Offer industry knowledge and trends\n- Support goal setting and achievement\n- Give constructive, actionable feedback\n\nMentoring style:\n- Empathetic and supportive\n- Honest and realistic\n- Focus on long-term growth\n- Encourage continuous learning\n- Help identify strengths and opportunities"

/-- Model of `PromptController.build_prompt` (prompt_controller.py lines 138-168),
with the context depth passed to `memory.get_context_for_prompt` made an explicit
argument (the source calls it with `last_n=10`; see `build_prompt_src`). -/
def build_prompt (role : RoleKey) (user_input : String) (memory : Option MemoryState)
    (include_context : Bool) (lastN : Int) : String :=
  let parts := [get_system_prompt role, ""]
  let parts :=
    match include_context, memory with
    | true, some mem =>
      let context := Memory.get_context_for_prompt mem lastN
      if context ≠ "" then parts ++ [context, ""] else parts
    | _, _ => parts
  let parts := parts ++ ["User: " ++ user_input, "Assistant:"]
  String.intercalate "\n" parts

/-- `PromptController.build_prompt` exactly as called in the source: the context
depth is the hard-coded `last_n=10` of prompt_controller.py line 159. -/
def build_prompt_src (role : RoleKey) (user_input : String) (memory : Option MemoryState)
    (include_context : Bool) : String :=
  build_prompt role user_input memory include_context 10

/-- Model of `PromptController.format_error_response`
(prompt_controller.py lines 201-211). -/
def format_error_response (error_message : String) : String :=
  "I apologize, but I encountered an issue: " ++ error_message ++
    ". Please try again or rephrase your request."

/-- The fixed message returned by `JarvisAssistant.respond` and yielded by
`respond_stream` on empty or whitespace-only input (assistant.py lines 52-53, 93-94). -/
def noInputMessage : String :=
  "I didn\x27t receive any input. Please tell me how I can help you."

/-- The whitespace characters stripped by Python `str.strip()` (Unicode
whitespace, as in CPython `unicodedata`). -/
def pyIsSpace (c : Char) : Bool :=
  c = ' ' ∨ c = '\t' ∨ c = '\n' ∨ c = '\r' ∨ c = '\x0b' ∨ c = '\x0c' ∨
  c = '\x1c' ∨ c = '\x1d' ∨ c = '\x1e' ∨ c = '\x1f' ∨ c = '\x85' ∨ c = '\xa0' ∨
  c = '\u1680' ∨ ('\u2000' ≤ c ∧ c ≤ '\u200a') ∨ c = '\u2028' ∨ c = '\u2029' ∨
  c = '\u202f' ∨ c = '\u205f' ∨ c = '\u3000'

/-- Python `s.strip()`: remove leading and trailing whitespace. -/
def pyStrip (s : String) : String :=
  String.mk (((s.data.dropWhile pyIsSpace).reverse.dropWhile pyIsSpace).reverse)

/-- Observable outcome of one `JarvisAssistant.respond` call: the returned
string, the state of the Transcript Store afterwards, and the prompt passed to
`engine.generate` (`none` when the Completion Client was not invoked). -/
structure RespondOutcome where
  output : String
  memory : MemoryState
  promptSent : Option String

/-- Model of `JarvisAssistant.respond` (assistant.py lines 41-80).
The Completion Client call is abstracted by `engineResult`: `Except.error e`
stands for `engine.generate(prompt)` raising `RuntimeError(e)` (the only
exception class `GeminiEngine.generate` raises), `Except.ok r` for it returning
`r`. `ts1`/`ts2` are the `datetime.now()` readings of the two `memory.add`
calls; `writeOk` is whether the persistence writes succeed. A failure raised by
`memory.add` itself lands in the generic `except Exception` branch of the
source, with the state mutated up to that point kept. -/
def respond (role : RoleKey) (st : MemoryState) (user_input : String)
    (save_to_memory : Bool) (engineResult : Except String String)
    (ts1 ts2 : String) (writeOk : Bool) : RespondOutcome :=
  if user_input = "" ∨ pyStrip user_input = "" then
    { output := noInputMessage, memory := st, promptSent := none }
  else
    let prompt := build_prompt_src role user_input (some st) true
    match engineResult with
    | Except.error e =>
        { output := format_error_response e, memory := st, promptSent := some prompt }
    | Except.ok response =>
      if save_to_memory then
        match Memory.add st "user" user_input ts1 writeOk with
        | Except.error e =>
            { output := format_error_response ("Unexpected error: " ++ e),
              memory := st, promptSent := some prompt }
        | Except.ok st1 =>
          match Memory.add st1 "assistant" response ts2 writeOk with
          | Except.error e =>
              { output := format_error_response ("Unexpected error: " ++ e),
                memory := st1, promptSent := some prompt }
          | Except.ok st2 =>
              { output := response, memory := st2, promptSent := some prompt }
      else
        { output := response, memory := st, promptSent := some prompt }

/-- Model of `GeminiEngine.generate_stream` (gemini_engine.py lines 84-111).
The underlying API stream is abstracted as the chunk texts delivered before the
failure point (`chunks`; falsy chunk texts are skipped by `if chunk.text:`) plus
an optional failure (`failure = some e` means iteration raised an exception with
text `e`). The whole body runs inside `try`, so a failure is caught and turned
into one final yielded fragment; the generator itself never raises. -/
def generate_stream (chunks : List String) (failure : Option String) : List String :=
  chunks.filter (fun c => c ≠ "") ++
    (match failure with
     | some e => ["Error in streaming: " ++ e]
     | none => [])

/-- Observable outcome of consuming one `JarvisAssistant.respond_stream` call to
exhaustion: the fragments yielded, in order, the resulting store state, and the
prompt passed to `engine.generate_stream` (`none` when it was not invoked). -/
structure StreamOutcome where
  fragments : List String
  memory : MemoryState
  promptSent : Option String

/-- Model of `JarvisAssistant.respond_stream` (assistant.py lines 82-120),
consumed to exhaustion. Because `GeminiEngine.generate_stream` converts its own
failures into a final yielded fragment, the `for` loop always completes and the
`save_to_memory` branch always runs; the `except Exception` branch of the
source (which yields a formatted error) is reachable only through a
`memory.add` failure. -/
def respond_stream (role : RoleKey) (st : MemoryState) (user_input : String)
    (save_to_memory : Bool) (chunks : List String) (failure : Option String)
    (ts1 ts2 : String) (writeOk : Bool) : StreamOutcome :=
  if user_input = "" ∨ pyStrip user_input = "" then
    { fragments := [noInputMessage], memory := st, promptSent := none }
  else
    let prompt := build_prompt_src role user_input (some st) true
    let frags := generate_stream chunks failure
    if save_to_memory then
      match Memory.add st "user" user_input ts1 writeOk with
      | Except.error e =>
          { fragments := frags ++ [format_error_response e], memory := st,
            promptSent := some prompt }
      | Except.ok st1 =>
        match Memory.add st1 "assistant" (String.join frags) ts2 writeOk with
        | Except.error e =>
            { fragments := frags ++ [format_error_response e], memory := st1,
              promptSent := some prompt }
        | Except.ok st2 =>
            { fragments := frags, memory := st2, promptSent := some prompt }
    else
      { fragments := frags, memory := st, promptSent := some prompt }

/-- One mutating Transcript Store operation, for stating reachability
invariants: a `Memory.add` or a `Memory.clear` call with its arguments. -/
inductive MemOp : Type where
  | add (role text now : String) (writeOk : Bool) : MemOp
  | clear (now : String) (writeOk : Bool) : MemOp

/-- Apply one `MemOp` to a store state; a raised `ValueError` propagates. -/
def applyOp (st : MemoryState) : MemOp → Except String MemoryState
  | MemOp.add r t n w => Memory.add st r t n w
  | MemOp.clear n w => Except.ok (Memory.clear st n w)

/-- Apply a sequence of store operations in order, stopping at the first
uncaught exception. -/
def applyOps (st : MemoryState) : List MemOp → Except String MemoryState
  | [] => Except.ok st
  | op :: rest =>
    match applyOp st op with
    | Except.ok st2 => applyOps st2 rest
    | Except.error e => Except.error e

/-- Run a sequence of `Memory.add` calls, one message (with its timestamp) per
call, stopping at the first uncaught exception. -/
def runAdds (st : MemoryState) (ms : List Message) (writeOk : Bool) :
    Except String MemoryState :=
  match ms with
  | [] => Except.ok st
  | m :: rest =>
    match Memory.add st m.role m.message m.timestamp writeOk with
    | Except.ok st2 => runAdds st2 rest writeOk
    | Except.error e => Except.error e

/-! ### Helper lemmas -/

/-- Decoding inverts the message serialization used by `_save_to_file`. -/
lemma decodeMsg_msgToJson (m : Message) : decodeMsg (msgToJson m) = some m := rfl

/-- Decoding a serialized conversation recovers it element by element. -/
lemma mapM_decodeMsg_map_msgToJson (l : List Message) :
    (l.map msgToJson).mapM decodeMsg = some l := by
  induction l with
  | nil => rfl
  | cons m rest ih =>
    simp only [List.map_cons, List.mapM_cons, decodeMsg_msgToJson, ih]
    rfl

/-! ### Claim theorems -/

/-- C2, counterexample: the file content `[]` is valid JSON but not the expected
structure, yet constructing the Transcript Store on it does not fall back to an
empty transcript — `data.get('messages', [])` raises an uncaught
`AttributeError`, so construction fails. -/
theorem load_nonobject_json_raises :
    loadFromFile (FileState.jsonContent (JsonVal.arr [])) = PyLoaded.raises "AttributeError" :=
  rfl

/-- C2 (amended): for an absent file, an unreadable file (`IOError`), or content
that fails to decode as JSON (`JSONDecodeError`), construction succeeds, the
in-memory conversation is the empty list, and a warning is printed exactly in
the unreadable / undecodable cases. (Content that decodes to a non-object JSON
value instead raises, per the counterexample.) -/
theorem load_fails_soft (raw : String) :
    loadFromFile FileState.absent = PyLoaded.loaded (JsonVal.arr []) false ∧
    loadFromFile FileState.unreadable = PyLoaded.loaded (JsonVal.arr []) true ∧
    loadFromFile (FileState.notJson raw) = PyLoaded.loaded (JsonVal.arr []) true :=
  ⟨rfl, rfl, rfl⟩

/-- C8: persisting a transcript and reloading the resulting file, with no
intervening mutation, yields exactly the serialized conversation back (no
warning, no failure), and the serialization is lossless message by message —
so the reloaded ordered message list is identical to the one saved. -/
theorem save_then_load_roundtrip (st : MemoryState) (now : String) :
    loadFromFile (saveToFile st now true).file =
      PyLoaded.loaded (JsonVal.arr (st.conversation.map msgToJson)) false ∧
    (st.conversation.map msgToJson).mapM decodeMsg = some st.conversation :=
  ⟨rfl, mapM_decodeMsg_map_msgToJson st.conversation⟩

/-- C6: `Memory.add` with a role outside `{user, assistant}` always raises
`ValueError` (the spec's `InvalidRoleError`). In this state-passing embedding
the error result carries no successor state: the raise happens before the
append and before any persist, so the in-memory list and the file are exactly
as before the call. -/
theorem add_invalid_role_rejected (st : MemoryState) (role text now : String)
    (writeOk : Bool) (h : ¬(role = "user" ∨ role = "assistant")) :
    Memory.add st role text now writeOk =
      Except.error "ValueError: Role must be either \x27user\x27 or \x27assistant\x27" := by
  unfold Memory.add
  rw [if_neg h]

/-- Witness for C6 at the concrete role `"system"`. -/
theorem add_invalid_role_rejected_witness :
    Memory.add { maxHistory := 50, conversation := [], file := FileState.absent }
        "system" "boot" "t0" true =
      Except.error "ValueError: Role must be either \x27user\x27 or \x27assistant\x27" :=
  add_invalid_role_rejected _ "system" "boot" "t0" true (by decide)

/-- C5: for every catalog role, user input, store state and context depth, the
assembled prompt is, in order: the role's fixed system prompt, a blank-line
separator, the context block for that depth (when non-empty) followed by a
blank-line separator, the literal `User: {input}` line, and a trailing literal
`Assistant:` line; hence it always ends with the line `Assistant:` and always
contains `User: {input}` verbatim. -/
theorem build_prompt_structure (role : RoleKey) (user_input : String)
    (mem : MemoryState) (lastN : Int) :
    build_prompt role user_input (some mem) true lastN =
      get_system_prompt role ++ "\n\n" ++
        (if Memory.get_context_for_prompt mem lastN = "" then ""
          else Memory.get_context_for_prompt mem lastN ++ "\n\n") ++
        "User: " ++ user_input ++ "\nAssistant:" ∧
    (∃ s, build_prompt role user_input (some mem) true lastN = s ++ "\nAssistant:") ∧
    (∃ a b, build_prompt role user_input (some mem) true lastN =
      a ++ ("User: " ++ user_input) ++ b) := by
  have hmain : build_prompt role user_input (some mem) true lastN =
      get_system_prompt role ++ "\n\n" ++
        (if Memory.get_context_for_prompt mem lastN = "" then ""
          else Memory.get_context_for_prompt mem lastN ++ "\n\n") ++
        "User: " ++ user_input ++ "\nAssistant:" := by
    unfold build_prompt
    by_cases hc : Memory.get_context_for_prompt mem lastN = ""
    · simp only [hc, ne_eq, not_true_eq_false, if_false, if_true]
      apply String.ext
      simp [String.intercalate, String.intercalate.go, String.data_append]
    · simp only [hc, ne_eq, not_false_eq_true, if_true, if_false]
      apply String.ext
      simp [String.intercalate, String.intercalate.go, String.data_append]
  refine ⟨hmain, ⟨get_system_prompt role ++ "\n\n" ++
    (if Memory.get_context_for_prompt mem lastN = "" then ""
      else Memory.get_context_for_prompt mem lastN ++ "\n\n") ++
    "User: " ++ user_input, hmain⟩,
    ⟨get_system_prompt role ++ "\n\n" ++
      (if Memory.get_context_for_prompt mem lastN = "" then ""
        else Memory.get_context_for_prompt mem lastN ++ "\n\n"), "\nAssistant:", ?_⟩⟩
  rw [hmain]
  apply String.ext
  simp [String.data_append]

/-- Stripping a string whose characters are all whitespace yields the empty
string, as does stripping the empty string. -/
lemma pyStrip_eq_empty_of_all_space (s : String) (h : s.data.all pyIsSpace = true) :
    pyStrip s = "" := by
  unfold pyStrip
  have h1 : s.data.dropWhile pyIsSpace = [] := by
    rw [List.dropWhile_eq_nil_iff]
    intro x hx
    exact (List.all_eq_true.mp h) x hx
  rw [h1]
  rfl

/-- C7: on empty or whitespace-only input, `respond` returns the fixed
no-input message, does not invoke the Completion Client (no prompt is sent),
leaves the Transcript Store untouched, and in particular `total_messages`
before equals `total_messages` after. -/
theorem respond_no_input (role : RoleKey) (st : MemoryState) (user_input : String)
    (save_to_memory : Bool) (engineResult : Except String String) (ts1 ts2 : String)
    (writeOk : Bool) (h : user_input.data.all pyIsSpace = true) :
    respond role st user_input save_to_memory engineResult ts1 ts2 writeOk =
      { output := noInputMessage, memory := st, promptSent := none } ∧
    (Memory.get_statistics
        (respond role st user_input save_to_memory engineResult ts1 ts2 writeOk).memory).total_messages =
      (Memory.get_statistics st).total_messages := by
  have hcond : user_input = "" ∨ pyStrip user_input = "" :=
    Or.inr (pyStrip_eq_empty_of_all_space user_input h)
  unfold respond
  rw [if_pos hcond]
  exact ⟨rfl, rfl⟩

/-- Witness for C7 at the whitespace-only input consisting of one space,
with a live store and a Completion Client that would have answered. -/
theorem respond_no_input_witness :
    respond RoleKey.general
        { maxHistory := 50,
          conversation := [{ role := "user", message := "old", timestamp := "t0" }],
          file := FileState.absent }
        " " true (Except.ok "unused answer") "t1" "t2" true =
      { output := noInputMessage,
        memory := { maxHistory := 50,
                    conversation := [{ role := "user", message := "old", timestamp := "t0" }],
                    file := FileState.absent },
        promptSent := none } :=
  (respond_no_input RoleKey.general _ " " true (Except.ok "unused answer") "t1" "t2" true
    (by decide)).1

/-- C4: when the Completion Client raises a generation failure on non-blank
input, `respond` returns the formatted apology embedding the failure detail and
the Transcript Store is unchanged: neither a user turn nor an assistant turn is
appended (the outcome's store state is exactly the input state). -/
theorem respond_engine_failure (role : RoleKey) (st : MemoryState) (user_input : String)
    (save_to_memory : Bool) (e : String) (ts1 ts2 : String) (writeOk : Bool)
    (h : ¬(user_input = "" ∨ pyStrip user_input = "")) :
    respond role st user_input save_to_memory (Except.error e) ts1 ts2 writeOk =
      { output := format_error_response e, memory := st,
        promptSent := some (build_prompt_src role user_input (some st) true) } ∧
    (∃ a b, format_error_response e = a ++ e ++ b) := by
  unfold respond
  rw [if_neg h]
  exact ⟨rfl,
    ⟨"I apologize, but I encountered an issue: ",
     ". Please try again or rephrase your request.", rfl⟩⟩

/-- Witness for C4 at the input `"hi"` and the failure detail of an exceeded
quota, matching the scenario in the spec. -/
theorem respond_engine_failure_witness :
    respond RoleKey.general { maxHistory := 50, conversation := [], file := FileState.absent }
        "hi" true (Except.error "API quota exceeded. Please try again later.") "t1" "t2" true =
      { output := format_error_response "API quota exceeded. Please try again later.",
        memory := { maxHistory := 50, conversation := [], file := FileState.absent },
        promptSent := some (build_prompt_src RoleKey.general "hi"
          (some { maxHistory := 50, conversation := [], file := FileState.absent }) true) } :=
  (respond_engine_failure RoleKey.general _ "hi" true
    "API quota exceeded. Please try again later." "t1" "t2" true (by decide)).1

/-- C9: with `save_to_memory = False` and a successful Completion Client call on
non-blank input, `respond` returns the generated text but appends nothing: the
Transcript Store state is exactly the input state. -/
theorem respond_no_save (role : RoleKey) (st : MemoryState) (user_input : String)
    (r : String) (ts1 ts2 : String) (writeOk : Bool)
    (h : ¬(user_input = "" ∨ pyStrip user_input = "")) :
    respond role st user_input false (Except.ok r) ts1 ts2 writeOk =
      { output := r, memory := st,
        promptSent := some (build_prompt_src role user_input (some st) true) } := by
  unfold respond
  rw [if_neg h]
  rfl

/-- Witness for C9 at a concrete successful exchange that is not saved. -/
theorem respond_no_save_witness :
    respond RoleKey.coder { maxHistory := 50, conversation := [], file := FileState.absent }
        "hello there" false (Except.ok "Greetings!") "t1" "t2" true =
      { output := "Greetings!",
        memory := { maxHistory := 50, conversation := [], file := FileState.absent },
        promptSent := some (build_prompt_src RoleKey.coder "hello there"
          (some { maxHistory := 50, conversation := [], file := FileState.absent }) true) } :=
  respond_no_save RoleKey.coder _ "hello there" "Greetings!" "t1" "t2" true (by decide)

/-- C1, counterexample: a mid-stream Completion Client failure during
`respond_stream("hi")` is surfaced as one more yielded fragment, but the
partial assistant turn and the user turn ARE persisted: starting from an empty
transcript, after consuming the stream the store holds the user turn and an
assistant turn whose text is the partial output concatenated with the error
fragment — not the unchanged empty list the claim requires. -/
theorem respond_stream_persists_on_failure_cex :
    (respond_stream RoleKey.general
        { maxHistory := 50, conversation := [], file := FileState.absent }
        "hi" true ["Hel"] (some "boom") "t1" "t2" false).fragments =
      ["Hel", "Error in streaming: boom"] ∧
    (respond_stream RoleKey.general
        { maxHistory := 50, conversation := [], file := FileState.absent }
        "hi" true ["Hel"] (some "boom") "t1" "t2" false).memory.conversation =
      [{ role := "user", message := "hi", timestamp := "t1" },
       { role := "assistant", message := "HelError in streaming: boom", timestamp := "t2" }] := by
  exact ⟨rfl, rfl⟩

/-- C1 (amended): `GeminiEngine.generate_stream` catches the mid-stream failure
itself and yields it as one final fragment, so `respond_stream` sees a stream
that completes normally: the failure is surfaced as one more yielded fragment,
and (with `save_to_memory = True`) the user turn and the concatenation of all
yielded fragments — the partial output plus the error fragment — are persisted
as the exchange. The store is not left unchanged. -/
theorem respond_stream_midstream_failure (role : RoleKey) (st : MemoryState)
    (user_input : String) (chunks : List String) (e : String) (ts1 ts2 : String)
    (writeOk : Bool) (st1 st2 : MemoryState)
    (hin : ¬(user_input = "" ∨ pyStrip user_input = ""))
    (h1 : Memory.add st "user" user_input ts1 writeOk = Except.ok st1)
    (h2 : Memory.add st1 "assistant" (String.join (generate_stream chunks (some e)))
      ts2 writeOk = Except.ok st2) :
    generate_stream chunks (some e) =
      chunks.filter (fun c => c ≠ "") ++ ["Error in streaming: " ++ e] ∧
    respond_stream role st user_input true chunks (some e) ts1 ts2 writeOk =
      { fragments := generate_stream chunks (some e), memory := st2,
        promptSent := some (build_prompt_src role user_input (some st) true) } := by
  constructor
  · rfl
  · unfold respond_stream
    rw [if_neg hin]
    simp only [h1, h2]
    rfl

/-- Witness for the amended C1 at the counterexample input (persistence write
failures suppressed, so the file component stays `absent`). -/
theorem respond_stream_midstream_failure_witness :
    generate_stream ["Hel"] (some "boom") =
      ["Hel"].filter (fun c => c ≠ "") ++ ["Error in streaming: boom"] ∧
    respond_stream RoleKey.general
        { maxHistory := 50, conversation := [], file := FileState.absent }
        "hi" true ["Hel"] (some "boom") "t1" "t2" false =
      { fragments := generate_stream ["Hel"] (some "boom"),
        memory := { maxHistory := 50,
                    conversation :=
                      [{ role := "user", message := "hi", timestamp := "t1" },
                       { role := "assistant", message := "HelError in streaming: boom",
                         timestamp := "t2" }],
                    file := FileState.absent },
        promptSent := some (build_prompt_src RoleKey.general "hi"
          (some { maxHistory := 50, conversation := [], file := FileState.absent }) true) } :=
  respond_stream_midstream_failure RoleKey.general
    { maxHistory := 50, conversation := [], file := FileState.absent }
    "hi" ["Hel"] "boom" "t1" "t2" false
    { maxHistory := 50,
      conversation := [{ role := "user", message := "hi", timestamp := "t1" }],
      file := FileState.absent }
    { maxHistory := 50,
      conversation :=
        [{ role := "user", message := "hi", timestamp := "t1" },
         { role := "assistant", message := "HelError in streaming: boom", timestamp := "t2" }],
      file := FileState.absent }
    (by decide) (by rfl) (by rfl)

/-- Keeping the last `k` elements commutes with appending: trimming, appending
more, and trimming again is the same as trimming the full append once. -/
lemma drop_last_append {α : Type} (k : Nat) (xs ys : List α) :
    ((xs.drop (xs.length - k)) ++ ys).drop (((xs.drop (xs.length - k)) ++ ys).length - k) =
    (xs ++ ys).drop ((xs ++ ys).length - k) := by
  rw [List.drop_append_eq_append_drop, List.drop_append_eq_append_drop, List.drop_drop]
  simp only [List.length_drop, List.length_append]
  congr 1
  · congr 1
    omega
  · congr 1
    omega

/-- For a positive capacity the trim step of `Memory.add` is exactly
`keep the last k`, whether or not the capacity was exceeded. -/
lemma trim_branch_eq (k : Nat) (l : List Message) (hmax : 1 ≤ k) :
    (if k < l.length then pySliceLast k l else l) = l.drop (l.length - k) := by
  by_cases h : k < l.length
  · rw [if_pos h]
    unfold pySliceLast
    rw [if_neg (by omega)]
  · rw [if_neg h]
    have h0 : l.length - k = 0 := by omega
    rw [h0, List.drop_zero]

/-- Persisting does not change the in-memory conversation. -/
lemma saveToFile_conversation (st : MemoryState) (now : String) (writeOk : Bool) :
    (saveToFile st now writeOk).conversation = st.conversation := by
  unfold saveToFile
  split <;> rfl

/-- Persisting does not change the configured capacity. -/
lemma saveToFile_maxHistory (st : MemoryState) (now : String) (writeOk : Bool) :
    (saveToFile st now writeOk).maxHistory = st.maxHistory := by
  unfold saveToFile
  split <;> rfl

/-- A record rebuilt from the three fields of a message is that message. -/
lemma Message.eta (m : Message) :
    ({ role := m.role, message := m.message, timestamp := m.timestamp } : Message) = m := rfl

/-- The conversation after a successful in-capacity append: the appended list
trimmed to its last `max` elements. -/
def trimAppend (max : Nat) (l : List Message) (m : Message) : List Message :=
  (l ++ [m]).drop ((l ++ [m]).length - max)

/-- For a valid role and positive capacity, `Memory.add` succeeds and the new
conversation is the last `max_history` elements of the appended list. -/
lemma add_ok_eq (st : MemoryState) (role text now : String) (writeOk : Bool)
    (hrole : role = "user" ∨ role = "assistant") (hmax : 1 ≤ st.maxHistory) :
    Memory.add st role text now writeOk =
      Except.ok (saveToFile
        { st with conversation := trimAppend st.maxHistory st.conversation ⟨role, text, now⟩ }
        now writeOk) := by
  unfold Memory.add trimAppend
  rw [if_pos hrole]
  simp only [trim_branch_eq st.maxHistory
    (st.conversation ++ [⟨role, text, now⟩]) hmax]

/-- Main invariant of a run of valid `Memory.add` calls from a state within
capacity: every call succeeds, the capacity setting is untouched, and the final
conversation is the last `max_history` elements of the initial conversation
followed by everything appended. -/
lemma runAdds_ok (ms : List Message) (st : MemoryState) (writeOk : Bool)
    (hroles : ∀ m ∈ ms, m.role = "user" ∨ m.role = "assistant")
    (hmax : 1 ≤ st.maxHistory)
    (hinit : st.conversation.length ≤ st.maxHistory) :
    ∃ st2, runAdds st ms writeOk = Except.ok st2 ∧
      st2.maxHistory = st.maxHistory ∧
      st2.conversation =
        (st.conversation ++ ms).drop ((st.conversation ++ ms).length - st.maxHistory) := by
  induction ms generalizing st with
  | nil =>
    refine ⟨st, rfl, rfl, ?_⟩
    have h0 : (st.conversation ++ []).length - st.maxHistory = 0 := by
      simp only [List.append_nil]
      omega
    rw [h0, List.drop_zero, List.append_nil]
  | cons m rest ih =>
    have hadd := add_ok_eq st m.role m.message m.timestamp writeOk
      (hroles m (List.mem_cons_self m rest)) hmax
    rw [Message.eta] at hadd
    set st' := saveToFile
      { st with conversation := trimAppend st.maxHistory st.conversation m }
      m.timestamp writeOk with hst'
    have hconv' : st'.conversation =
        (st.conversation ++ [m]).drop ((st.conversation ++ [m]).length - st.maxHistory) := by
      rw [hst', saveToFile_conversation]
      rfl
    have hmax' : st'.maxHistory = st.maxHistory := by
      rw [hst', saveToFile_maxHistory]
    have hlen' : st'.conversation.length ≤ st'.maxHistory := by
      rw [hconv', hmax', List.length_drop]
      omega
    obtain ⟨st2, hrun, hmaxeq, hconveq⟩ := ih st'
      (fun x hx => hroles x (List.mem_cons_of_mem m hx))
      (by rw [hmax']; exact hmax) hlen'
    refine ⟨st2, ?_, ?_, ?_⟩
    · unfold runAdds
      rw [hadd]
      exact hrun
    · rw [hmaxeq, hmax']
    · rw [hconveq, hconv', hmax']
      rw [drop_last_append st.maxHistory (st.conversation ++ [m]) rest]
      simp [List.append_assoc]

/-- C3, counterexample: with `max_history = 0` and an (automatically within
capacity) empty initial transcript, one valid `add` leaves the store with one
message, violating `length ≤ max_history` — the Python trim
`conversation[-0:]` keeps the whole list instead of none of it. -/
theorem add_unbounded_at_capacity_zero :
    (Memory.add { maxHistory := 0, conversation := [], file := FileState.absent }
        "user" "hello" "t1" false).map
      (fun s => decide (s.conversation.length ≤ s.maxHistory)) = Except.ok false := rfl

/-- C3 (amended, requiring `max_history ≥ 1`): for every initial transcript
within capacity and every finite sequence of valid `add` calls, after each call
(each prefix of the sequence) every call has succeeded, the store's contents
are exactly the most recent messages of the appended sequence in their original
relative order, and the length is `min (initial + appended) max_history` — in
particular at most `max_history`. -/
theorem add_sequence_bounded (st : MemoryState) (ms : List Message) (writeOk : Bool)
    (k : Nat)
    (hroles : ∀ m ∈ ms, m.role = "user" ∨ m.role = "assistant")
    (hmax : 1 ≤ st.maxHistory)
    (hinit : st.conversation.length ≤ st.maxHistory) :
    (runAdds st (ms.take k) writeOk).map (fun s => s.conversation) =
      Except.ok ((st.conversation ++ ms.take k).drop
        ((st.conversation ++ ms.take k).length - st.maxHistory)) ∧
    (runAdds st (ms.take k) writeOk).map (fun s => s.conversation.length) =
      Except.ok (min (st.conversation.length + (ms.take k).length) st.maxHistory) := by
  obtain ⟨st2, h1, hm, h2⟩ := runAdds_ok (ms.take k) st writeOk
    (fun m hmem => hroles m (List.take_subset k ms hmem)) hmax hinit
  rw [h1]
  constructor
  · simp only [Except.map, h2]
  · simp only [Except.map, h2, List.length_drop, List.length_append]
    congr 1
    omega

/-- Witness for the amended C3 at the spec's own scenario: capacity 3, four
valid adds from an empty store; after the fourth call exactly the three most
recent messages remain, in order. -/
theorem add_sequence_bounded_witness :
    (runAdds { maxHistory := 3, conversation := [], file := FileState.absent }
        ([{ role := "user", message := "m1", timestamp := "t1" },
          { role := "assistant", message := "m2", timestamp := "t2" },
          { role := "user", message := "m3", timestamp := "t3" },
          { role := "assistant", message := "m4", timestamp := "t4" }].take 4) false).map
      (fun s => s.conversation) =
      Except.ok [{ role := "assistant", message := "m2", timestamp := "t2" },
                 { role := "user", message := "m3", timestamp := "t3" },
                 { role := "assistant", message := "m4", timestamp := "t4" }] ∧
    (runAdds { maxHistory := 3, conversation := [], file := FileState.absent }
        ([{ role := "user", message := "m1", timestamp := "t1" },
          { role := "assistant", message := "m2", timestamp := "t2" },
          { role := "user", message := "m3", timestamp := "t3" },
          { role := "assistant", message := "m4", timestamp := "t4" }].take 4) false).map
      (fun s => s.conversation.length) = Except.ok 3 :=
  add_sequence_bounded
    { maxHistory := 3, conversation := [], file := FileState.absent }
    [{ role := "user", message := "m1", timestamp := "t1" },
     { role := "assistant", message := "m2", timestamp := "t2" },
     { role := "user", message := "m3", timestamp := "t3" },
     { role := "assistant", message := "m4", timestamp := "t4" }] false 4
    (by decide) (by decide) (by decide)

/-- Every message of the conversation carries one of the two admitted roles. -/
def rolesValid (st : MemoryState) : Prop :=
  ∀ m ∈ st.conversation, m.role = "user" ∨ m.role = "assistant"

/-- A successful `Memory.add` preserves role validity: the only new message
passed the role check, and trimming only removes messages. -/
lemma add_preserves_rolesValid (st st2 : MemoryState) (role text now : String)
    (writeOk : Bool) (h : Memory.add st role text now writeOk = Except.ok st2)
    (hr : rolesValid st) : rolesValid st2 := by
  unfold Memory.add at h
  by_cases hrole : role = "user" ∨ role = "assistant"
  · rw [if_pos hrole] at h
    dsimp only at h
    injection h with h2
    subst h2
    intro m hm
    rw [saveToFile_conversation] at hm
    dsimp only at hm
    have hm2 : m ∈ st.conversation ++
        [({ role := role, message := text, timestamp := now } : Message)] := by
      split at hm
      · unfold pySliceLast at hm
        split at hm
        · exact hm
        · exact List.drop_subset _ _ hm
      · exact hm
    rcases List.mem_append.mp hm2 with hmem | hmem
    · exact hr m hmem
    · rw [List.mem_singleton.mp hmem]
      exact hrole
  · rw [if_neg hrole] at h
    exact absurd h (by simp)

/-- Any sequence of successful store operations starting from a role-valid
state ends in a role-valid state. -/
lemma applyOps_preserves_rolesValid (ops : List MemOp) (st st2 : MemoryState)
    (h : applyOps st ops = Except.ok st2) (hr : rolesValid st) : rolesValid st2 := by
  induction ops generalizing st with
  | nil =>
    unfold applyOps at h
    cases h
    exact hr
  | cons op rest ih =>
    unfold applyOps at h
    cases hop : applyOp st op with
    | error e =>
      rw [hop] at h
      exact absurd h (by simp)
    | ok st1 =>
      rw [hop] at h
      refine ih st1 h ?_
      cases op with
      | add r t n w => exact add_preserves_rolesValid st st1 r t n w hop hr
      | clear n w =>
        intro m hm
        have : st1 = Memory.clear st n w := (Except.ok.injEq _ _).mp hop.symm
        rw [this] at hm
        unfold Memory.clear at hm
        rw [saveToFile_conversation] at hm
        exact absurd hm (List.not_mem_nil m)

/-- Counting the two role tags covers a role-valid conversation exactly. -/
lemma countP_roles_split (l : List Message)
    (h : ∀ m ∈ l, m.role = "user" ∨ m.role = "assistant") :
    l.countP (fun m => m.role = "user") + l.countP (fun m => m.role = "assistant") =
      l.length := by
  induction l with
  | nil => rfl
  | cons m rest ih =>
    have hrest := ih (fun x hx => h x (List.mem_cons_of_mem m hx))
    rcases h m (List.mem_cons_self m rest) with hm | hm <;>
      simp [List.countP_cons, hm, Nat.add_assoc, Nat.add_comm, Nat.add_left_comm] <;>
      omega

/-- C10: for every store whose contents were produced solely through successful
`add` and `clear` calls starting from an empty transcript, the statistics
satisfy `total_messages = user_messages + assistant_messages`, because `add`
admits only the roles `user` and `assistant`. -/
theorem statistics_identity (maxH : Nat) (f : FileState) (ops : List MemOp)
    (st : MemoryState)
    (h : applyOps { maxHistory := maxH, conversation := [], file := f } ops =
      Except.ok st) :
    (Memory.get_statistics st).total_messages =
      (Memory.get_statistics st).user_messages +
        (Memory.get_statistics st).assistant_messages := by
  have hr : rolesValid st := by
    refine applyOps_preserves_rolesValid ops _ st h ?_
    intro m hm
    exact absurd hm (List.not_mem_nil m)
  unfold Memory.get_statistics
  exact (countP_roles_split st.conversation hr).symm

/-- Witness for C10: one add, a clear, then another add, evaluated concretely. -/
theorem statistics_identity_witness :
    (Memory.get_statistics
        { maxHistory := 5,
          conversation := [{ role := "assistant", message := "yo", timestamp := "t3" }],
          file := FileState.absent }).total_messages =
      (Memory.get_statistics
        { maxHistory := 5,
          conversation := [{ role := "assistant", message := "yo", timestamp := "t3" }],
          file := FileState.absent }).user_messages +
      (Memory.get_statistics
        { maxHistory := 5,
          conversation := [{ role := "assistant", message := "yo", timestamp := "t3" }],
          file := FileState.absent }).assistant_messages :=
  statistics_identity 5 FileState.absent
    [MemOp.add "user" "hi" "t1" false, MemOp.clear "t2" false,
     MemOp.add "assistant" "yo" "t3" false]
    { maxHistory := 5,
      conversation := [{ role := "assistant", message := "yo", timestamp := "t3" }],
      file := FileState.absent }
    (by rfl)

end Jarvis
